import Mathlib

/-! # System font lookup of `LayoutTheme.cpp`

A shallow embedding of `getCachedFontDescription` and of
`LayoutTheme::systemFont(CSSValueID, FontDescription&)` from
`Source/core/layout/LayoutTheme.cpp`, followed by theorems about them.

The ten function-local statics of `getCachedFontDescription` are the only
mutable state; they are passed explicitly as a `SystemFontCache`.  A C++
reference to one of them is a `CachedSlot`.  The pure virtual overload
`systemFont(CSSValueID, FontStyle&, FontWeight&, float&, AtomicString&)`, which
every platform theme implements on its own, is a parameter of the embedding.
`float` values are only initialised to `0`, handed over and stored here, never
computed with, and are embedded as exact rationals.

The struct `SkSize` of `Source/third_party/skia/include/core/SkSize.h` is
embedded after it, with the `float` comparisons it makes (see `CFloat`).
-/

namespace blink

/-! ## Types declared outside this source tree -/

/-- Modelled from the spec: the keyword enumeration `CSSValueID` of the generated
header `core/CSSValueKeywords.h`, which is not in this tree.  The ten enumerators
that `getCachedFontDescription` names are kept; `other id` stands for every
remaining enumerator, which the `switch` sends to its `default:` label. -/
inductive CSSValueID where
  | CSSValueCaption
  | CSSValueIcon
  | CSSValueMenu
  | CSSValueMessageBox
  | CSSValueSmallCaption
  | CSSValueStatusBar
  | CSSValueWebkitMiniControl
  | CSSValueWebkitSmallControl
  | CSSValueWebkitControl
  | CSSValueNone
  | other (id : Nat)
  deriving DecidableEq, Repr

/-- Modelled from the spec: the enumeration `FontStyle` (`{Normal, Italic, …}`),
declared outside this tree; `other` stands for the enumerators the spec elides. -/
inductive FontStyle where
  | FontStyleNormal
  | FontStyleItalic
  | other (n : Nat)
  deriving DecidableEq, Repr

/-- Modelled from the spec: the enumeration `FontWeight` (`{Normal, Bold, …}`),
declared outside this tree; `other` stands for the enumerators the spec elides. -/
inductive FontWeight where
  | FontWeightNormal
  | FontWeightBold
  | other (n : Nat)
  deriving DecidableEq, Repr

/-- Modelled from the spec: the `genericFamily` classifier of a font description
(`FontDescription::GenericFamilyType`), declared outside this tree.  `NoFamily`
is the value the spec calls "none". -/
inductive GenericFamilyType where
  | NoFamily
  | SerifFamily
  | other (n : Nat)
  deriving DecidableEq, Repr

/-- Modelled from the spec: `AtomicString`, declared outside this tree.  A
default-constructed `AtomicString` is the null string, here `none`. -/
abbrev AtomicString := Option String

/-- The C++ type `float`, embedded as exact rationals (see the file header). -/
abbrev float := ℚ

/-- Modelled from the spec: the class `FontDescription`, declared outside this
tree, with the fields the spec lists: style, weight, specified size, the primary
family name with its generic family classifier, and the absolute-size flag. -/
structure FontDescription where
  style : FontStyle
  weight : FontWeight
  specifiedSize : float
  family : AtomicString
  genericFamily : GenericFamilyType
  isAbsoluteSize : Bool
  deriving DecidableEq, Repr

namespace FontDescription

/-- Modelled from the spec: the default constructor `FontDescription()`, which is
not in this tree: "created empty (zero-valued / not absolute)". -/
def empty : FontDescription :=
  { style := FontStyle.FontStyleNormal
    weight := FontWeight.FontWeightNormal
    specifiedSize := 0
    family := none
    genericFamily := GenericFamilyType.NoFamily
    isAbsoluteSize := false }

/-- Modelled from the spec: the setter `setStyle`, declared outside this tree. -/
def setStyle (d : FontDescription) (s : FontStyle) : FontDescription :=
  { d with style := s }

/-- Modelled from the spec: the setter `setWeight`, declared outside this tree. -/
def setWeight (d : FontDescription) (w : FontWeight) : FontDescription :=
  { d with weight := w }

/-- Modelled from the spec: the setter `setSpecifiedSize`, declared outside this
tree. -/
def setSpecifiedSize (d : FontDescription) (z : float) : FontDescription :=
  { d with specifiedSize := z }

/-- Modelled from the spec: the setter `setIsAbsoluteSize`, declared outside this
tree. -/
def setIsAbsoluteSize (d : FontDescription) (b : Bool) : FontDescription :=
  { d with isAbsoluteSize := b }

/-- Modelled from the spec: `firstFamily().setFamily(f)`, declared outside this
tree: it stores the name of the first (primary) family. -/
def setFirstFamily (d : FontDescription) (f : AtomicString) : FontDescription :=
  { d with family := f }

/-- Modelled from the spec: the setter `setGenericFamily`, declared outside this
tree. -/
def setGenericFamily (d : FontDescription) (g : GenericFamilyType) : FontDescription :=
  { d with genericFamily := g }

end FontDescription

/-! ## `getCachedFontDescription` -/

/-- The ten `DEFINE_STATIC_LOCAL` objects of `getCachedFontDescription`; a value
of this type is the C++ reference (`FontDescription&`) to one of them. -/
inductive CachedSlot where
  | caption
  | icon
  | menu
  | messageBox
  | smallCaption
  | statusBar
  | webkitMiniControl
  | webkitSmallControl
  | webkitControl
  | defaultDescription
  deriving DecidableEq, Repr

/-- The contents of the ten function-local statics. -/
structure SystemFontCache where
  caption : FontDescription
  icon : FontDescription
  menu : FontDescription
  messageBox : FontDescription
  smallCaption : FontDescription
  statusBar : FontDescription
  webkitMiniControl : FontDescription
  webkitSmallControl : FontDescription
  webkitControl : FontDescription
  defaultDescription : FontDescription
  deriving DecidableEq, Repr

namespace SystemFontCache

/-- Reading through a reference to one of the statics. -/
def read (c : SystemFontCache) : CachedSlot → FontDescription
  | CachedSlot.caption => c.caption
  | CachedSlot.icon => c.icon
  | CachedSlot.menu => c.menu
  | CachedSlot.messageBox => c.messageBox
  | CachedSlot.smallCaption => c.smallCaption
  | CachedSlot.statusBar => c.statusBar
  | CachedSlot.webkitMiniControl => c.webkitMiniControl
  | CachedSlot.webkitSmallControl => c.webkitSmallControl
  | CachedSlot.webkitControl => c.webkitControl
  | CachedSlot.defaultDescription => c.defaultDescription

/-- The statics as `DEFINE_STATIC_LOCAL(FontDescription, _, ())` constructs them:
each one a default-constructed `FontDescription`. -/
def initial : SystemFontCache :=
  { caption := FontDescription.empty
    icon := FontDescription.empty
    menu := FontDescription.empty
    messageBox := FontDescription.empty
    smallCaption := FontDescription.empty
    statusBar := FontDescription.empty
    webkitMiniControl := FontDescription.empty
    webkitSmallControl := FontDescription.empty
    webkitControl := FontDescription.empty
    defaultDescription := FontDescription.empty }

end SystemFontCache

/-- The `switch` of `getCachedFontDescription`: which static the returned
reference designates.  `ASSERT_NOT_REACHED()` under `default:` is a debug-build
assertion and compiles to nothing in a release build, which is what is embedded:
control falls through to `return defaultDescription;`. -/
def getCachedFontDescription (systemFontID : CSSValueID) : CachedSlot :=
  match systemFontID with
  | CSSValueID.CSSValueCaption => CachedSlot.caption
  | CSSValueID.CSSValueIcon => CachedSlot.icon
  | CSSValueID.CSSValueMenu => CachedSlot.menu
  | CSSValueID.CSSValueMessageBox => CachedSlot.messageBox
  | CSSValueID.CSSValueSmallCaption => CachedSlot.smallCaption
  | CSSValueID.CSSValueStatusBar => CachedSlot.statusBar
  | CSSValueID.CSSValueWebkitMiniControl => CachedSlot.webkitMiniControl
  | CSSValueID.CSSValueWebkitSmallControl => CachedSlot.webkitSmallControl
  | CSSValueID.CSSValueWebkitControl => CachedSlot.webkitControl
  | CSSValueID.CSSValueNone => CachedSlot.defaultDescription
  | CSSValueID.other _ => CachedSlot.defaultDescription

/-! ## `LayoutTheme::systemFont` -/

/-- The four in/out reference arguments of the platform overload
`systemFont(CSSValueID, FontStyle&, FontWeight&, float&, AtomicString&)`. -/
structure SystemFontValues where
  fontStyle : FontStyle
  fontWeight : FontWeight
  fontSize : float
  fontFamily : AtomicString
  deriving DecidableEq, Repr

/-- The platform overload of `systemFont`, implemented outside this file: from the
role and the incoming values of its four reference arguments to their outgoing
values. -/
abbrev PlatformSystemFont := CSSValueID → SystemFontValues → SystemFontValues

/-- The locals `fontStyle`, `fontWeight`, `fontSize`, `fontFamily` as
`LayoutTheme::systemFont` initialises them before the platform call. -/
def initialValues : SystemFontValues :=
  { fontStyle := FontStyle.FontStyleNormal
    fontWeight := FontWeight.FontWeightNormal
    fontSize := 0
    fontFamily := none }

/-- What one call of `LayoutTheme::systemFont(CSSValueID, FontDescription&)`
leaves behind: the caller's description, the statics, and the roles with which
the platform overload was invoked during the call, in order. -/
structure SystemFontResult where
  fontDescription : FontDescription
  cache : SystemFontCache
  platformCalls : List CSSValueID
  deriving DecidableEq, Repr

namespace LayoutTheme

/-- The method `LayoutTheme::systemFont(CSSValueID, FontDescription&)`.  The first
statement copy-assigns the selected static to the caller's object (the parameter
is a reference to the caller's object, so `=` assigns through it); every setter
after it acts on the caller's object.  No statement assigns to a static. -/
def systemFont (platformSystemFont : PlatformSystemFont) (cache : SystemFontCache)
    (systemFontID : CSSValueID) : SystemFontResult :=
  let fontDescription := cache.read (getCachedFontDescription systemFontID)
  if fontDescription.isAbsoluteSize then
    { fontDescription := fontDescription, cache := cache, platformCalls := [] }
  else
    let out := platformSystemFont systemFontID initialValues
    let fontDescription := fontDescription.setStyle out.fontStyle
    let fontDescription := fontDescription.setWeight out.fontWeight
    let fontDescription := fontDescription.setSpecifiedSize out.fontSize
    let fontDescription := fontDescription.setIsAbsoluteSize true
    let fontDescription := fontDescription.setFirstFamily out.fontFamily
    let fontDescription := fontDescription.setGenericFamily GenericFamilyType.NoFamily
    { fontDescription := fontDescription, cache := cache, platformCalls := [systemFontID] }

end LayoutTheme

/-! ## Sequences of calls -/

/-- One call of `LayoutTheme::systemFont`: the platform overload in force at the
time of the call, and the role asked for. -/
structure Call where
  platformSystemFont : PlatformSystemFont
  systemFontID : CSSValueID

/-- The results of a sequence of calls, each one starting from the statics the
previous one left. -/
def runCalls (cache : SystemFontCache) : List Call → List SystemFontResult
  | [] => []
  | c :: cs =>
    let r := LayoutTheme.systemFont c.platformSystemFont cache c.systemFontID
    r :: runCalls r.cache cs

/-- The statics after a sequence of calls. -/
def cacheAfter (cache : SystemFontCache) : List Call → SystemFontCache
  | [] => cache
  | c :: cs => cacheAfter (LayoutTheme.systemFont c.platformSystemFont cache c.systemFontID).cache cs

/-- The roles `getCachedFontDescription` has a `case` label for. -/
def isSystemFontRole : CSSValueID → Bool
  | CSSValueID.other _ => false
  | _ => true

/-- A platform overload that writes the same four values whatever the role. -/
def constantPlatformFont (v : SystemFontValues) : PlatformSystemFont :=
  fun _ _ => v

/-- The first configuration of Scenario 1: `(Normal, Normal, 12.0, "Arial")`. -/
def arial12 : SystemFontValues :=
  { fontStyle := FontStyle.FontStyleNormal
    fontWeight := FontWeight.FontWeightNormal
    fontSize := 12
    fontFamily := some "Arial" }

/-- The second configuration of Scenario 1: `(Italic, Bold, 20.0, "Georgia")`. -/
def georgia20 : SystemFontValues :=
  { fontStyle := FontStyle.FontStyleItalic
    fontWeight := FontWeight.FontWeightBold
    fontSize := 20
    fontFamily := some "Georgia" }

/-- A platform overload that answers `arial12` for the roles with a `case` label
and `georgia20` for every other keyword. -/
def roleSensitivePlatformFont : PlatformSystemFont :=
  fun systemFontID _ => if isSystemFontRole systemFontID then arial12 else georgia20

/-- A cache in which only the `menu` static is sealed. -/
def menuSealedCache : SystemFontCache :=
  { SystemFontCache.initial with
    menu := { style := FontStyle.FontStyleItalic
              weight := FontWeight.FontWeightBold
              specifiedSize := 9
              family := some "Tahoma"
              genericFamily := GenericFamilyType.SerifFamily
              isAbsoluteSize := true } }

/-- The nine roles of `getCachedFontDescription` whose `case` label returns a
static of their own; `CSSValueNone` and every keyword under `default:` return
`defaultDescription`. -/
def namedSystemFontRoles : List CSSValueID :=
  [CSSValueID.CSSValueCaption, CSSValueID.CSSValueIcon, CSSValueID.CSSValueMenu,
   CSSValueID.CSSValueMessageBox, CSSValueID.CSSValueSmallCaption,
   CSSValueID.CSSValueStatusBar, CSSValueID.CSSValueWebkitMiniControl,
   CSSValueID.CSSValueWebkitSmallControl, CSSValueID.CSSValueWebkitControl]

/-- The ten roles `getCachedFontDescription` has a `case` label for: the nine
named ones and `CSSValueNone`. -/
def recognisedSystemFontRoles : List CSSValueID :=
  namedSystemFontRoles ++ [CSSValueID.CSSValueNone]

/-- A platform overload that returns without writing to any of its four
reference arguments. -/
def untouchedPlatformFont : PlatformSystemFont :=
  fun _ values => values

end blink

/-! ## `SkSize.h`

`SkSize` compares its `float` fields with `==` and `<=`, so here the values of
`float` are embedded with the cases those operators tell apart.  Positive and
negative zero compare equal under both operators and are one value. -/

/-- The values of the C++ type `float` as its comparison operators see them: not
a number, the two infinities, and the finite values, each given by the number it
stands for. -/
inductive CFloat where
  | nan
  | negInf
  | finite (q : ℚ)
  | posInf
  deriving DecidableEq, Repr

namespace CFloat

/-- The literal `0` converted to `float`. -/
def zero : CFloat := finite 0

/-- Whether the value is not a number. -/
def isNaN : CFloat → Bool
  | nan => true
  | _ => false

/-- The operator `==` of `float`: false as soon as one side is not a number. -/
def eq (x y : CFloat) : Bool :=
  match x, y with
  | nan, _ => false
  | _, nan => false
  | negInf, negInf => true
  | posInf, posInf => true
  | finite a, finite b => decide (a = b)
  | _, _ => false

/-- The operator `<=` of `float`: false as soon as one side is not a number. -/
def le (x y : CFloat) : Bool :=
  match x, y with
  | nan, _ => false
  | _, nan => false
  | negInf, _ => true
  | _, posInf => true
  | finite a, finite b => decide (a ≤ b)
  | _, _ => false

end CFloat

/-- The struct `SkSize`. -/
structure SkSize where
  fWidth : CFloat
  fHeight : CFloat
  deriving DecidableEq, Repr

namespace SkSize

/-- The factory `Make`: `return {w, h};`. -/
def Make (w h : CFloat) : SkSize :=
  { fWidth := w, fHeight := h }

/-- The factory `MakeEmpty`: `return {0, 0};`. -/
def MakeEmpty : SkSize :=
  { fWidth := CFloat.zero, fHeight := CFloat.zero }

/-- The method `set`: `*this = SkSize{w, h};`, returning the new `*this`. -/
def set (_self : SkSize) (w h : CFloat) : SkSize :=
  { fWidth := w, fHeight := h }

/-- The method `isZero`: `0 == fWidth && 0 == fHeight`. -/
def isZero (self : SkSize) : Bool :=
  CFloat.eq CFloat.zero self.fWidth && CFloat.eq CFloat.zero self.fHeight

/-- The method `isEmpty`: `fWidth <= 0 || fHeight <= 0`. -/
def isEmpty (self : SkSize) : Bool :=
  CFloat.le self.fWidth CFloat.zero || CFloat.le self.fHeight CFloat.zero

/-- The method `setEmpty`: `*this = SkSize{0, 0};`, returning the new `*this`. -/
def setEmpty (_self : SkSize) : SkSize :=
  { fWidth := CFloat.zero, fHeight := CFloat.zero }

/-- The method `width`. -/
def width (self : SkSize) : CFloat := self.fWidth

/-- The method `height`. -/
def height (self : SkSize) : CFloat := self.fHeight

/-- The free function `operator==` on `SkSize`:
`a.fWidth == b.fWidth && a.fHeight == b.fHeight`. -/
def operatorEq (a b : SkSize) : Bool :=
  CFloat.eq a.fWidth b.fWidth && CFloat.eq a.fHeight b.fHeight

end SkSize

namespace blink

/-! ## Basic facts -/

/-- A call of `systemFont` leaves every static as it found it. -/
theorem systemFont_cache_eq (p : PlatformSystemFont) (c : SystemFontCache) (r : CSSValueID) :
    (LayoutTheme.systemFont p c r).cache = c := by
  unfold LayoutTheme.systemFont
  by_cases h : (c.read (getCachedFontDescription r)).isAbsoluteSize = true <;> simp [h]

/-- A sequence of calls leaves every static as it found it. -/
theorem cacheAfter_eq (c : SystemFontCache) (calls : List Call) : cacheAfter c calls = c := by
  induction calls generalizing c with
  | nil => rfl
  | cons k ks ih =>
    show cacheAfter (LayoutTheme.systemFont k.platformSystemFont c k.systemFontID).cache ks = c
    rw [systemFont_cache_eq, ih]

/-- On a sealed slot `systemFont` takes the early `return`. -/
theorem systemFont_of_sealed (p : PlatformSystemFont) (c : SystemFontCache) (r : CSSValueID)
    (h : (c.read (getCachedFontDescription r)).isAbsoluteSize = true) :
    LayoutTheme.systemFont p c r =
      { fontDescription := c.read (getCachedFontDescription r), cache := c, platformCalls := [] } := by
  unfold LayoutTheme.systemFont
  simp [h]

/-- On an unsealed slot `systemFont` runs the platform overload and the six
setters. -/
theorem systemFont_of_unsealed (p : PlatformSystemFont) (c : SystemFontCache) (r : CSSValueID)
    (h : (c.read (getCachedFontDescription r)).isAbsoluteSize = false) :
    LayoutTheme.systemFont p c r =
      { fontDescription :=
          { style := (p r initialValues).fontStyle
            weight := (p r initialValues).fontWeight
            specifiedSize := (p r initialValues).fontSize
            family := (p r initialValues).fontFamily
            genericFamily := GenericFamilyType.NoFamily
            isAbsoluteSize := true }
        cache := c
        platformCalls := [r] } := by
  unfold LayoutTheme.systemFont
  simp [h, FontDescription.setStyle, FontDescription.setWeight, FontDescription.setSpecifiedSize,
    FontDescription.setIsAbsoluteSize, FontDescription.setFirstFamily,
    FontDescription.setGenericFamily]

/-- Every keyword without a `case` label is sent to the default static. -/
theorem getCachedFontDescription_of_not_role (v : CSSValueID) (hv : isSystemFontRole v = false) :
    getCachedFontDescription v = CachedSlot.defaultDescription := by
  cases v <;> first | rfl | simp [isSystemFontRole] at hv

/-! ## Memoisation across calls -/

/-- C1, the code at the failing input: from the initial statics, two calls for
`CSSValueCaption` with the same platform overload each invoke that overload once,
so the second call does not find a memoised description. -/
theorem caption_twice_invokes_platform_twice :
    (runCalls SystemFontCache.initial
        [⟨constantPlatformFont arial12, CSSValueID.CSSValueCaption⟩,
         ⟨constantPlatformFont arial12, CSSValueID.CSSValueCaption⟩]).map
      (fun x => x.platformCalls)
      = [[CSSValueID.CSSValueCaption], [CSSValueID.CSSValueCaption]] := by
  decide

/-- C2, the code at the failing input: after the first call for `CSSValueCaption`
from the initial statics the `caption` static is still the default-constructed
description, with `isAbsoluteSize = false`; the resolved values went to the
caller's object only. -/
theorem caption_static_unsealed_after_first_call :
    (LayoutTheme.systemFont (constantPlatformFont arial12) SystemFontCache.initial
        CSSValueID.CSSValueCaption).cache.read CachedSlot.caption = FontDescription.empty
    ∧ ((LayoutTheme.systemFont (constantPlatformFont arial12) SystemFontCache.initial
        CSSValueID.CSSValueCaption).cache.read CachedSlot.caption).isAbsoluteSize = false
    ∧ (LayoutTheme.systemFont (constantPlatformFont arial12) SystemFontCache.initial
        CSSValueID.CSSValueCaption).fontDescription.isAbsoluteSize = true := by
  refine ⟨?_, ?_, ?_⟩
  · rw [systemFont_cache_eq]; rfl
  · rw [systemFont_cache_eq]; rfl
  · rw [systemFont_of_unsealed (constantPlatformFont arial12) SystemFontCache.initial
      CSSValueID.CSSValueCaption rfl]

/-- C3, the code at the failing input (Scenario 1): the first call for
`CSSValueCaption` returns the 12.0 "Arial" description; after the platform
overload is reconfigured the second call returns the 20.0 "Georgia" description,
not the first one. -/
theorem scenario1_second_call_returns_reconfigured_values :
    (runCalls SystemFontCache.initial
        [⟨constantPlatformFont arial12, CSSValueID.CSSValueCaption⟩,
         ⟨constantPlatformFont georgia20, CSSValueID.CSSValueCaption⟩]).map
      (fun x => x.fontDescription)
      = [{ style := FontStyle.FontStyleNormal
           weight := FontWeight.FontWeightNormal
           specifiedSize := 12
           family := some "Arial"
           genericFamily := GenericFamilyType.NoFamily
           isAbsoluteSize := true },
         { style := FontStyle.FontStyleItalic
           weight := FontWeight.FontWeightBold
           specifiedSize := 20
           family := some "Georgia"
           genericFamily := GenericFamilyType.NoFamily
           isAbsoluteSize := true }] := by
  show [_, _] = [_, _]
  rw [systemFont_cache_eq,
    systemFont_of_unsealed (constantPlatformFont arial12) SystemFontCache.initial
      CSSValueID.CSSValueCaption rfl,
    systemFont_of_unsealed (constantPlatformFont georgia20) SystemFontCache.initial
      CSSValueID.CSSValueCaption rfl]
  rfl

/-! ## The two paths of one call -/

/-- C4 (fast path): when the static selected for the role has
`isAbsoluteSize = true`, `systemFont` returns that static field for field, does
not invoke the platform overload, and its whole result is the same whichever
platform overload is installed. -/
theorem systemFont_fast_path (p : PlatformSystemFont) (c : SystemFontCache) (r : CSSValueID)
    (h : (c.read (getCachedFontDescription r)).isAbsoluteSize = true) :
    (LayoutTheme.systemFont p c r).fontDescription = c.read (getCachedFontDescription r)
    ∧ (LayoutTheme.systemFont p c r).platformCalls = []
    ∧ ∀ q : PlatformSystemFont, LayoutTheme.systemFont q c r = LayoutTheme.systemFont p c r := by
  refine ⟨?_, ?_, ?_⟩
  · rw [systemFont_of_sealed p c r h]
  · rw [systemFont_of_sealed p c r h]
  · intro q
    rw [systemFont_of_sealed p c r h, systemFont_of_sealed q c r h]

/-- Witness of C4: the sealed `menu` static is returned as it is, although the
platform overload would answer the "Georgia" values. -/
theorem systemFont_fast_path_witness :
    (menuSealedCache.read (getCachedFontDescription CSSValueID.CSSValueMenu)).isAbsoluteSize = true
    ∧ ((LayoutTheme.systemFont (constantPlatformFont georgia20) menuSealedCache
          CSSValueID.CSSValueMenu).fontDescription
        = menuSealedCache.read (getCachedFontDescription CSSValueID.CSSValueMenu)
      ∧ (LayoutTheme.systemFont (constantPlatformFont georgia20) menuSealedCache
          CSSValueID.CSSValueMenu).platformCalls = []
      ∧ ∀ q : PlatformSystemFont,
          LayoutTheme.systemFont q menuSealedCache CSSValueID.CSSValueMenu
            = LayoutTheme.systemFont (constantPlatformFont georgia20) menuSealedCache
                CSSValueID.CSSValueMenu) :=
  ⟨rfl, systemFont_fast_path (constantPlatformFont georgia20) menuSealedCache
    CSSValueID.CSSValueMenu rfl⟩

/-- C5 (slow path): when the static selected for the role has
`isAbsoluteSize = false`, `systemFont` invokes the platform overload exactly once,
with the role it was given, and the description it returns has the style, weight,
specified size and first family the overload wrote, generic family `NoFamily` and
`isAbsoluteSize = true`. -/
theorem systemFont_slow_path (p : PlatformSystemFont) (c : SystemFontCache) (r : CSSValueID)
    (h : (c.read (getCachedFontDescription r)).isAbsoluteSize = false) :
    (LayoutTheme.systemFont p c r).platformCalls = [r]
    ∧ (LayoutTheme.systemFont p c r).fontDescription.style = (p r initialValues).fontStyle
    ∧ (LayoutTheme.systemFont p c r).fontDescription.weight = (p r initialValues).fontWeight
    ∧ (LayoutTheme.systemFont p c r).fontDescription.specifiedSize = (p r initialValues).fontSize
    ∧ (LayoutTheme.systemFont p c r).fontDescription.family = (p r initialValues).fontFamily
    ∧ (LayoutTheme.systemFont p c r).fontDescription.genericFamily = GenericFamilyType.NoFamily
    ∧ (LayoutTheme.systemFont p c r).fontDescription.isAbsoluteSize = true := by
  rw [systemFont_of_unsealed p c r h]
  exact ⟨rfl, rfl, rfl, rfl, rfl, rfl, rfl⟩

/-- Witness of C5: the first line of Scenario 1, `CSSValueCaption` on the initial
statics with the platform overload answering `(Normal, Normal, 12.0, "Arial")`. -/
theorem systemFont_slow_path_witness :
    (SystemFontCache.initial.read
        (getCachedFontDescription CSSValueID.CSSValueCaption)).isAbsoluteSize = false
    ∧ ((LayoutTheme.systemFont (constantPlatformFont arial12) SystemFontCache.initial
          CSSValueID.CSSValueCaption).platformCalls = [CSSValueID.CSSValueCaption]
      ∧ (LayoutTheme.systemFont (constantPlatformFont arial12) SystemFontCache.initial
          CSSValueID.CSSValueCaption).fontDescription.style = FontStyle.FontStyleNormal
      ∧ (LayoutTheme.systemFont (constantPlatformFont arial12) SystemFontCache.initial
          CSSValueID.CSSValueCaption).fontDescription.weight = FontWeight.FontWeightNormal
      ∧ (LayoutTheme.systemFont (constantPlatformFont arial12) SystemFontCache.initial
          CSSValueID.CSSValueCaption).fontDescription.specifiedSize = 12
      ∧ (LayoutTheme.systemFont (constantPlatformFont arial12) SystemFontCache.initial
          CSSValueID.CSSValueCaption).fontDescription.family = some "Arial"
      ∧ (LayoutTheme.systemFont (constantPlatformFont arial12) SystemFontCache.initial
          CSSValueID.CSSValueCaption).fontDescription.genericFamily = GenericFamilyType.NoFamily
      ∧ (LayoutTheme.systemFont (constantPlatformFont arial12) SystemFontCache.initial
          CSSValueID.CSSValueCaption).fontDescription.isAbsoluteSize = true) :=
  ⟨rfl, systemFont_slow_path (constantPlatformFont arial12) SystemFontCache.initial
    CSSValueID.CSSValueCaption rfl⟩

/-! ## Keywords without a `case` label -/

/-- C6, counterexample: `other 0` has no `case` label, yet on the initial statics
with a platform overload that answers differently for it than for `CSSValueNone`,
`systemFont (other 0)` and `systemFont CSSValueNone` return different
descriptions: the overload is handed the keyword as given, not `CSSValueNone`. -/
theorem unrecognised_role_differs_from_default :
    isSystemFontRole (CSSValueID.other 0) = false
    ∧ (LayoutTheme.systemFont roleSensitivePlatformFont SystemFontCache.initial
          (CSSValueID.other 0)).fontDescription
        ≠ (LayoutTheme.systemFont roleSensitivePlatformFont SystemFontCache.initial
          CSSValueID.CSSValueNone).fontDescription := by
  refine ⟨rfl, ?_⟩
  rw [systemFont_of_unsealed roleSensitivePlatformFont SystemFontCache.initial
      (CSSValueID.other 0) rfl,
    systemFont_of_unsealed roleSensitivePlatformFont SystemFontCache.initial
      CSSValueID.CSSValueNone rfl]
  intro h
  have hs := congrArg FontDescription.style h
  exact absurd hs (by decide)

/-- C6 as amended: for a keyword `v` without a `case` label, `systemFont v` reads
the default static; on a sealed default static it returns that static without
invoking the platform overload, and on an unsealed one it invokes the overload
exactly once, with `v` itself, and returns the values the overload wrote for `v`;
so it returns the same description as `systemFont CSSValueNone` from the same
statics with the same overload whenever the default static is sealed or the
overload writes the same four values for `v` as for `CSSValueNone`. -/
theorem systemFont_unrecognised_role (p : PlatformSystemFont) (c : SystemFontCache)
    (v : CSSValueID) (hv : isSystemFontRole v = false) :
    getCachedFontDescription v = CachedSlot.defaultDescription
    ∧ (LayoutTheme.systemFont p c v).platformCalls
        = (if (c.read CachedSlot.defaultDescription).isAbsoluteSize then [] else [v])
    ∧ (LayoutTheme.systemFont p c v).fontDescription
        = (if (c.read CachedSlot.defaultDescription).isAbsoluteSize then
            c.read CachedSlot.defaultDescription
          else
            { style := (p v initialValues).fontStyle
              weight := (p v initialValues).fontWeight
              specifiedSize := (p v initialValues).fontSize
              family := (p v initialValues).fontFamily
              genericFamily := GenericFamilyType.NoFamily
              isAbsoluteSize := true })
    ∧ (((c.read CachedSlot.defaultDescription).isAbsoluteSize = true
          ∨ p v initialValues = p CSSValueID.CSSValueNone initialValues) →
        (LayoutTheme.systemFont p c v).fontDescription
          = (LayoutTheme.systemFont p c CSSValueID.CSSValueNone).fontDescription) := by
  have hslot := getCachedFontDescription_of_not_role v hv
  have hnone : getCachedFontDescription CSSValueID.CSSValueNone
      = CachedSlot.defaultDescription := rfl
  by_cases hs : (c.read CachedSlot.defaultDescription).isAbsoluteSize = true
  · have e1 := systemFont_of_sealed p c v (by rw [hslot]; exact hs)
    have e2 := systemFont_of_sealed p c CSSValueID.CSSValueNone (by rw [hnone]; exact hs)
    refine ⟨hslot, ?_, ?_, fun _ => ?_⟩
    · rw [e1, if_pos hs]
    · rw [e1, if_pos hs, hslot]
    · rw [e1, e2, hslot, hnone]
  · have hu : (c.read CachedSlot.defaultDescription).isAbsoluteSize = false := by
      simpa using hs
    have e1 := systemFont_of_unsealed p c v (by rw [hslot]; exact hu)
    have e2 := systemFont_of_unsealed p c CSSValueID.CSSValueNone (by rw [hnone]; exact hu)
    refine ⟨hslot, ?_, ?_, fun h => ?_⟩
    · rw [e1, if_neg hs]
    · rw [e1, if_neg hs]
    · have hp : p v initialValues = p CSSValueID.CSSValueNone initialValues := by
        rcases h with h | h
        · exact absurd h hs
        · exact h
      rw [e1, e2, hp]

/-- Witness of the amended C6: keyword `other 7` on the initial statics with a
platform overload that ignores the role: the default static is read, the overload
is invoked once with `other 7`, and the description is the one `CSSValueNone`
gets. -/
theorem systemFont_unrecognised_role_witness :
    isSystemFontRole (CSSValueID.other 7) = false
    ∧ ((SystemFontCache.initial.read CachedSlot.defaultDescription).isAbsoluteSize = true
        ∨ constantPlatformFont arial12 (CSSValueID.other 7) initialValues
          = constantPlatformFont arial12 CSSValueID.CSSValueNone initialValues)
    ∧ getCachedFontDescription (CSSValueID.other 7) = CachedSlot.defaultDescription
    ∧ (LayoutTheme.systemFont (constantPlatformFont arial12) SystemFontCache.initial
          (CSSValueID.other 7)).platformCalls = [CSSValueID.other 7]
    ∧ (LayoutTheme.systemFont (constantPlatformFont arial12) SystemFontCache.initial
          (CSSValueID.other 7)).fontDescription
        = { style := FontStyle.FontStyleNormal
            weight := FontWeight.FontWeightNormal
            specifiedSize := 12
            family := some "Arial"
            genericFamily := GenericFamilyType.NoFamily
            isAbsoluteSize := true }
    ∧ (LayoutTheme.systemFont (constantPlatformFont arial12) SystemFontCache.initial
          (CSSValueID.other 7)).fontDescription
        = (LayoutTheme.systemFont (constantPlatformFont arial12) SystemFontCache.initial
          CSSValueID.CSSValueNone).fontDescription :=
  have t := systemFont_unrecognised_role (constantPlatformFont arial12)
    SystemFontCache.initial (CSSValueID.other 7) rfl
  ⟨rfl, Or.inr rfl, t.1, t.2.1, t.2.2.1, t.2.2.2 (Or.inr rfl)⟩

/-! ## What a call does to the statics -/

/-- C7 (sealing): a static that has `isAbsoluteSize = true` before a call of
`systemFont` holds exactly the same description after it, whatever the role and
the platform overload; and so it does after any sequence of calls, each with its
own role and platform overload, where it therefore still has
`isAbsoluteSize = true`. -/
theorem sealed_static_never_changes (p : PlatformSystemFont) (c : SystemFontCache)
    (r : CSSValueID) (slot : CachedSlot) (h : (c.read slot).isAbsoluteSize = true) :
    (LayoutTheme.systemFont p c r).cache.read slot = c.read slot
    ∧ ∀ calls : List Call,
        (cacheAfter c calls).read slot = c.read slot
        ∧ ((cacheAfter c calls).read slot).isAbsoluteSize = true := by
  refine ⟨?_, ?_⟩
  · rw [systemFont_cache_eq]
  · intro calls
    rw [cacheAfter_eq]
    exact ⟨rfl, h⟩

/-- Witness of C7: the sealed `menu` static survives a call for `CSSValueMenu`
with a platform overload answering the "Georgia" values, and any sequence of
calls. -/
theorem sealed_static_never_changes_witness :
    (menuSealedCache.read CachedSlot.menu).isAbsoluteSize = true
    ∧ ((LayoutTheme.systemFont (constantPlatformFont georgia20) menuSealedCache
          CSSValueID.CSSValueMenu).cache.read CachedSlot.menu
        = menuSealedCache.read CachedSlot.menu
      ∧ ∀ calls : List Call,
          (cacheAfter menuSealedCache calls).read CachedSlot.menu
            = menuSealedCache.read CachedSlot.menu
          ∧ ((cacheAfter menuSealedCache calls).read CachedSlot.menu).isAbsoluteSize = true) :=
  ⟨rfl, sealed_static_never_changes (constantPlatformFont georgia20) menuSealedCache
    CSSValueID.CSSValueMenu CachedSlot.menu rfl⟩

/-- C8 (isolation): for distinct roles `A` and `B`, the static selected for `B`
holds after `systemFont A` the description it held before, whatever the statics
and the platform overload. -/
theorem systemFont_isolation (p : PlatformSystemFont) (c : SystemFontCache)
    (A B : CSSValueID) (_hAB : A ≠ B) :
    (LayoutTheme.systemFont p c A).cache.read (getCachedFontDescription B)
      = c.read (getCachedFontDescription B) := by
  rw [systemFont_cache_eq]

/-- Witness of C8 (Scenario 2): a call for `CSSValueMenu` leaves the static of
`CSSValueStatusBar` as it was. -/
theorem systemFont_isolation_witness :
    CSSValueID.CSSValueMenu ≠ CSSValueID.CSSValueStatusBar
    ∧ (LayoutTheme.systemFont (constantPlatformFont arial12) SystemFontCache.initial
          CSSValueID.CSSValueMenu).cache.read
          (getCachedFontDescription CSSValueID.CSSValueStatusBar)
        = SystemFontCache.initial.read
          (getCachedFontDescription CSSValueID.CSSValueStatusBar) :=
  ⟨by decide, systemFont_isolation (constantPlatformFont arial12) SystemFontCache.initial
    CSSValueID.CSSValueMenu CSSValueID.CSSValueStatusBar (by decide)⟩

/-! ## The returned description -/

/-- C9 (fully specified result): for every keyword, with or without a `case`
label, every state of the statics and every platform overload, the description
`systemFont` returns has `isAbsoluteSize = true`. -/
theorem systemFont_result_isAbsoluteSize (p : PlatformSystemFont) (c : SystemFontCache)
    (r : CSSValueID) :
    (LayoutTheme.systemFont p c r).fontDescription.isAbsoluteSize = true := by
  by_cases h : (c.read (getCachedFontDescription r)).isAbsoluteSize = true
  · rw [systemFont_of_sealed p c r h]
    exact h
  · rw [systemFont_of_unsealed p c r (by simpa using h)]

/-- C10 (idempotence under a fixed platform overload): for every role, every state
of the statics and every platform overload kept in place between the calls, two
consecutive calls of `systemFont` for the role, the second one starting from the
statics the first one left, return the same description field for field. -/
theorem systemFont_twice_same_description (p : PlatformSystemFont) (c : SystemFontCache)
    (r : CSSValueID) :
    (LayoutTheme.systemFont p (LayoutTheme.systemFont p c r).cache r).fontDescription
      = (LayoutTheme.systemFont p c r).fontDescription
    ∧ (runCalls c [⟨p, r⟩, ⟨p, r⟩]).map (fun x => x.fontDescription)
      = [(LayoutTheme.systemFont p c r).fontDescription,
         (LayoutTheme.systemFont p c r).fontDescription] := by
  have h : (LayoutTheme.systemFont p (LayoutTheme.systemFont p c r).cache r).fontDescription
      = (LayoutTheme.systemFont p c r).fontDescription := by
    rw [systemFont_cache_eq]
  refine ⟨h, ?_⟩
  show [(LayoutTheme.systemFont p c r).fontDescription,
      (LayoutTheme.systemFont p (LayoutTheme.systemFont p c r).cache r).fontDescription]
    = [_, _]
  rw [h]

/-! ## The role-to-static mapping -/

/-- C11 (total lookup with a default fallback): for every keyword other than the
nine named roles `getCachedFontDescription` yields the default static, the one it
yields for `CSSValueNone`; and it yields a static for every keyword whatsoever. -/
theorem getCachedFontDescription_total_default (v : CSSValueID)
    (hv : v ∉ namedSystemFontRoles) :
    getCachedFontDescription v = CachedSlot.defaultDescription
    ∧ getCachedFontDescription v = getCachedFontDescription CSSValueID.CSSValueNone
    ∧ ∀ u : CSSValueID, ∃ slot : CachedSlot, getCachedFontDescription u = slot := by
  refine ⟨?_, ?_, fun u => ⟨getCachedFontDescription u, rfl⟩⟩ <;>
    cases v <;> first
      | rfl
      | exact absurd (by simp [namedSystemFontRoles]) hv

/-- Witness of C11: the keyword `other 3` is none of the nine named roles and is
sent to the default static. -/
theorem getCachedFontDescription_total_default_witness :
    CSSValueID.other 3 ∉ namedSystemFontRoles
    ∧ (getCachedFontDescription (CSSValueID.other 3) = CachedSlot.defaultDescription
      ∧ getCachedFontDescription (CSSValueID.other 3)
        = getCachedFontDescription CSSValueID.CSSValueNone
      ∧ ∀ u : CSSValueID, ∃ slot : CachedSlot, getCachedFontDescription u = slot) :=
  ⟨by decide, getCachedFontDescription_total_default (CSSValueID.other 3) (by decide)⟩

/-- C12 (one static per role): two distinct roles among the ten with a `case`
label are sent to two distinct statics; the ten roles are exactly the listed
ones, and the list of their ten statics has no repetition. -/
theorem getCachedFontDescription_injective_on_roles (a b : CSSValueID)
    (ha : isSystemFontRole a = true) (hb : isSystemFontRole b = true) (hab : a ≠ b) :
    getCachedFontDescription a ≠ getCachedFontDescription b
    ∧ (a ∈ recognisedSystemFontRoles ∧ b ∈ recognisedSystemFontRoles)
    ∧ (recognisedSystemFontRoles.map getCachedFontDescription).Nodup
    ∧ (recognisedSystemFontRoles.map getCachedFontDescription).length = 10 := by
  refine ⟨?_, ⟨?_, ?_⟩, by decide, rfl⟩
  · cases a <;> cases b <;>
      simp_all [isSystemFontRole, getCachedFontDescription]
  · cases a <;> simp_all [isSystemFontRole, recognisedSystemFontRoles, namedSystemFontRoles]
  · cases b <;> simp_all [isSystemFontRole, recognisedSystemFontRoles, namedSystemFontRoles]

/-- Witness of C12: `CSSValueMenu` and `CSSValueStatusBar` are sent to different
statics. -/
theorem getCachedFontDescription_injective_on_roles_witness :
    isSystemFontRole CSSValueID.CSSValueMenu = true
    ∧ isSystemFontRole CSSValueID.CSSValueStatusBar = true
    ∧ CSSValueID.CSSValueMenu ≠ CSSValueID.CSSValueStatusBar
    ∧ (getCachedFontDescription CSSValueID.CSSValueMenu
          ≠ getCachedFontDescription CSSValueID.CSSValueStatusBar
      ∧ (CSSValueID.CSSValueMenu ∈ recognisedSystemFontRoles
        ∧ CSSValueID.CSSValueStatusBar ∈ recognisedSystemFontRoles)
      ∧ (recognisedSystemFontRoles.map getCachedFontDescription).Nodup
      ∧ (recognisedSystemFontRoles.map getCachedFontDescription).length = 10) :=
  ⟨rfl, rfl, by decide,
    getCachedFontDescription_injective_on_roles CSSValueID.CSSValueMenu
      CSSValueID.CSSValueStatusBar rfl rfl (by decide)⟩

/-! ## Frame of a call and the untouched platform outputs -/

/-- C13 (the statics are not written): for every keyword, every state of the
statics and every platform overload, the ten statics after `systemFont` are the
ten statics before it; only the caller's description receives values.  The same
holds after any sequence of calls. -/
theorem systemFont_writes_no_static (p : PlatformSystemFont) (c : SystemFontCache)
    (r : CSSValueID) :
    (LayoutTheme.systemFont p c r).cache = c
    ∧ (∀ slot : CachedSlot, (LayoutTheme.systemFont p c r).cache.read slot = c.read slot)
    ∧ ∀ calls : List Call, cacheAfter c calls = c := by
  refine ⟨systemFont_cache_eq p c r, ?_, cacheAfter_eq c⟩
  intro slot
  rw [systemFont_cache_eq]

/-- C14 (pre-initialised in/out arguments): on an unsealed static `systemFont`
invokes the platform overload exactly once, with the role it was given and with
the four reference arguments holding style Normal, weight Normal, size 0 and the
null family, and returns what the overload made of exactly those values; so when
the overload leaves the four untouched, `systemFont` returns style Normal, weight
Normal, specified size 0, null first family, generic family `NoFamily` and
`isAbsoluteSize = true`. -/
theorem systemFont_untouched_outputs (p : PlatformSystemFont) (c : SystemFontCache)
    (r : CSSValueID)
    (h : (c.read (getCachedFontDescription r)).isAbsoluteSize = false) :
    (LayoutTheme.systemFont p c r).platformCalls = [r]
    ∧ (LayoutTheme.systemFont p c r).fontDescription =
        { style := (p r { fontStyle := FontStyle.FontStyleNormal
                          fontWeight := FontWeight.FontWeightNormal
                          fontSize := 0
                          fontFamily := none }).fontStyle
          weight := (p r { fontStyle := FontStyle.FontStyleNormal
                           fontWeight := FontWeight.FontWeightNormal
                           fontSize := 0
                           fontFamily := none }).fontWeight
          specifiedSize := (p r { fontStyle := FontStyle.FontStyleNormal
                                  fontWeight := FontWeight.FontWeightNormal
                                  fontSize := 0
                                  fontFamily := none }).fontSize
          family := (p r { fontStyle := FontStyle.FontStyleNormal
                           fontWeight := FontWeight.FontWeightNormal
                           fontSize := 0
                           fontFamily := none }).fontFamily
          genericFamily := GenericFamilyType.NoFamily
          isAbsoluteSize := true }
    ∧ (p r { fontStyle := FontStyle.FontStyleNormal
             fontWeight := FontWeight.FontWeightNormal
             fontSize := 0
             fontFamily := none }
          = { fontStyle := FontStyle.FontStyleNormal
              fontWeight := FontWeight.FontWeightNormal
              fontSize := 0
              fontFamily := none } →
        (LayoutTheme.systemFont p c r).fontDescription =
          { style := FontStyle.FontStyleNormal
            weight := FontWeight.FontWeightNormal
            specifiedSize := 0
            family := none
            genericFamily := GenericFamilyType.NoFamily
            isAbsoluteSize := true }) := by
  have e := systemFont_of_unsealed p c r h
  refine ⟨?_, ?_, fun hp => ?_⟩
  · rw [e]
  · rw [e]
    rfl
  · rw [e]
    have hp2 : p r initialValues = initialValues := hp
    rw [hp2]
    rfl

/-- Witness of C14: `CSSValueCaption` on the initial statics with a platform
overload that writes nothing: one invocation, and the pre-initialised values come
back in the description. -/
theorem systemFont_untouched_outputs_witness :
    (SystemFontCache.initial.read
        (getCachedFontDescription CSSValueID.CSSValueCaption)).isAbsoluteSize = false
    ∧ untouchedPlatformFont CSSValueID.CSSValueCaption
          { fontStyle := FontStyle.FontStyleNormal
            fontWeight := FontWeight.FontWeightNormal
            fontSize := 0
            fontFamily := none }
        = { fontStyle := FontStyle.FontStyleNormal
            fontWeight := FontWeight.FontWeightNormal
            fontSize := 0
            fontFamily := none }
    ∧ (LayoutTheme.systemFont untouchedPlatformFont SystemFontCache.initial
          CSSValueID.CSSValueCaption).platformCalls = [CSSValueID.CSSValueCaption]
    ∧ (LayoutTheme.systemFont untouchedPlatformFont SystemFontCache.initial
          CSSValueID.CSSValueCaption).fontDescription =
        { style := FontStyle.FontStyleNormal
          weight := FontWeight.FontWeightNormal
          specifiedSize := 0
          family := none
          genericFamily := GenericFamilyType.NoFamily
          isAbsoluteSize := true } :=
  have t := systemFont_untouched_outputs untouchedPlatformFont SystemFontCache.initial
    CSSValueID.CSSValueCaption rfl
  ⟨rfl, rfl, t.1, t.2.2 rfl⟩

end blink

/-! ## Comparison of `float` values -/

namespace CFloat

/-- The test `0 == x` holds of the value zero only. -/
theorem eq_zero_iff (x : CFloat) : eq zero x = true ↔ x = zero := by
  cases x <;> simp [eq, zero, eq_comm]

/-- The test `x <= 0` holds of minus infinity and of the finite values that are
at most zero. -/
theorem le_zero_iff (x : CFloat) :
    le x zero = true ↔ x = negInf ∨ ∃ q : ℚ, x = finite q ∧ q ≤ 0 := by
  cases x <;> simp [le, zero]

/-- On values that are numbers `==` is equality of the values. -/
theorem eq_iff_of_not_nan (x y : CFloat) (hx : x.isNaN = false) (hy : y.isNaN = false) :
    eq x y = true ↔ x = y := by
  cases x <;> cases y <;> simp_all [eq, isNaN]

end CFloat

/-! ## `SkSize` -/

namespace SkSize

/-- A size whose width is not a number does not compare equal to itself. -/
theorem operatorEq_nan_width (h : CFloat) :
    operatorEq (Make CFloat.nan h) (Make CFloat.nan h) = false := by
  simp [operatorEq, Make, CFloat.eq]

/-- C15 (the predicates match their documentation): `isZero` is true iff width and
height are both zero; `isEmpty` is true iff width `<= 0` or height `<= 0`, which
on finite values is the order of the numbers; after `setEmpty` and for
`MakeEmpty` width and height are zero and both predicates hold; after
`set (w, h)` and for `Make (w, h)`, `width` is `w` and `height` is `h`. -/
theorem predicates_match_documentation (s : SkSize) (w h : CFloat) (a b : ℚ) :
    (s.isZero = true ↔ s.fWidth = CFloat.zero ∧ s.fHeight = CFloat.zero)
    ∧ (s.isEmpty = true ↔
        CFloat.le s.fWidth CFloat.zero = true ∨ CFloat.le s.fHeight CFloat.zero = true)
    ∧ ((Make (CFloat.finite a) (CFloat.finite b)).isZero = true ↔ a = 0 ∧ b = 0)
    ∧ ((Make (CFloat.finite a) (CFloat.finite b)).isEmpty = true ↔ a ≤ 0 ∨ b ≤ 0)
    ∧ (s.setEmpty.width = CFloat.zero ∧ s.setEmpty.height = CFloat.zero
        ∧ s.setEmpty.isZero = true ∧ s.setEmpty.isEmpty = true)
    ∧ (MakeEmpty.width = CFloat.zero ∧ MakeEmpty.height = CFloat.zero
        ∧ MakeEmpty.isZero = true ∧ MakeEmpty.isEmpty = true)
    ∧ ((s.set w h).width = w ∧ (s.set w h).height = h)
    ∧ ((Make w h).width = w ∧ (Make w h).height = h) := by
  have hz : MakeEmpty.isZero = true := by decide
  have he : MakeEmpty.isEmpty = true := by decide
  refine ⟨?_, ?_, ?_, ?_, ⟨rfl, rfl, hz, he⟩, ⟨rfl, rfl, hz, he⟩, ⟨rfl, rfl⟩, ⟨rfl, rfl⟩⟩
  · simp [isZero, CFloat.eq_zero_iff]
  · simp [isEmpty]
  · simp only [isZero, Make, CFloat.eq, CFloat.zero, Bool.and_eq_true, decide_eq_true_eq]
    exact ⟨fun hab => ⟨hab.1.symm, hab.2.symm⟩, fun hab => ⟨hab.1.symm, hab.2.symm⟩⟩
  · simp [isEmpty, Make, CFloat.le, CFloat.zero]

/-- C17 (zero implies empty, not conversely): every size for which `isZero` holds
satisfies `isEmpty`; the size of width `-1` and height `5` satisfies `isEmpty` but
not `isZero`. -/
theorem isZero_implies_isEmpty (s : SkSize) (hz : s.isZero = true) :
    s.isEmpty = true
    ∧ (Make (CFloat.finite (-1)) (CFloat.finite 5)).isEmpty = true
    ∧ (Make (CFloat.finite (-1)) (CFloat.finite 5)).isZero = false := by
  refine ⟨?_, by decide, by decide⟩
  have hw : s.fWidth = CFloat.zero := by
    have h := hz
    simp [isZero, CFloat.eq_zero_iff] at h
    exact h.1
  simp [isEmpty, hw, CFloat.le, CFloat.zero]

/-- Witness of C17: the size made by `MakeEmpty` satisfies `isZero`, hence
`isEmpty`. -/
theorem isZero_implies_isEmpty_witness :
    MakeEmpty.isZero = true
    ∧ (MakeEmpty.isEmpty = true
      ∧ (Make (CFloat.finite (-1)) (CFloat.finite 5)).isEmpty = true
      ∧ (Make (CFloat.finite (-1)) (CFloat.finite 5)).isZero = false) :=
  ⟨by decide, isZero_implies_isEmpty MakeEmpty (by decide)⟩

end SkSize
